import Mathlib

/-!
Verification of the scoring engine of the sales-influencer content-analysis
repository: the three per-post analyzers (SubstanceDetector, QualityAssessor,
UniquenessDetector), the corpus similarity component, and the composite score
of master_analysis.py, shallowly embedded over Lean strings and rationals.

Conventions of the embedding:
* Python str values are Lean String values (Python len, lower, strip, split
  correspond to String.length, toLower, trim and the split functions below).
* Python float arithmetic on the score values is modelled as exact rational
  arithmetic; every score produced by the code is a small sum of rational
  constants, so no rounding error of binary floats is relevant to the
  properties proved here.
* Python round(x, n) (round half to even) is modelled exactly by pythonRound2
  and pythonRound1 below.
* Regular-expression counts used by the code are implemented as direct
  character-level scanners with the matching and scanning semantics of the
  specific patterns appearing in the sources (leftmost, non-overlapping,
  alternatives tried in order, greedy repetition).
-/

/-! ## Basic text utilities mirroring the Python string operations -/

/-- Word character in the sense of the regex class used by the sources
(ASCII letters, digits and underscore; the emoji and punctuation appearing in
the analysed texts are not word characters). -/
def isWordChar (c : Char) : Bool := c.isAlphanum || c == '_'

/-- Does the list start with the given pattern? -/
def listStartsWith : List Char → List Char → Bool
  | [], _ => true
  | _ :: _, [] => false
  | p :: ps, c :: cs => p == c && listStartsWith ps cs

/-- Python s.strip() on a character list: whitespace removed from both ends.
(The core String.trim is defined by well-founded recursion and does not
reduce in the kernel, so the embedding uses this structural version.) -/
def trimList (l : List Char) : List Char :=
  ((l.dropWhile Char.isWhitespace).reverse.dropWhile Char.isWhitespace).reverse

/-- Python s.strip(). -/
def pyStrip (s : String) : String := String.mk (trimList s.data)

/-- Splitting at every character satisfying p (pieces between the matching
characters, in order, possibly empty). -/
def splitPredAux (p : Char → Bool) : List Char → List Char → List (List Char)
  | [], cur => [cur.reverse]
  | c :: cs, cur =>
    if p c then cur.reverse :: splitPredAux p cs [] else splitPredAux p cs (c :: cur)

/-- Python text.split() with no separator: split on whitespace runs,
dropping empty pieces. -/
def pyWords (s : String) : List String :=
  ((splitPredAux Char.isWhitespace s.data []).map String.mk).filter (fun w => w ≠ "")

/-- Python text.lower() (the analysed texts are ASCII apart from emoji,
which lower() leaves unchanged, as does Char.toLower). -/
def pyLower (s : String) : String := String.mk (s.data.map Char.toLower)

/-- Python s.split(sep) for a nonempty separator: the pieces between
leftmost non-overlapping occurrences of sep. -/
def splitOnListAux (sep : List Char) : Nat → List Char → List Char → List (List Char)
  | 0, s, cur => [cur.reverse ++ s]
  | _ + 1, [], cur => [cur.reverse]
  | fuel + 1, c :: cs, cur =>
    if listStartsWith sep (c :: cs) then
      cur.reverse :: splitOnListAux sep fuel ((c :: cs).drop sep.length) []
    else splitOnListAux sep fuel cs (c :: cur)

/-- Python s.split(sep). -/
def pySplitOn (s sep : String) : List String :=
  if sep.data.isEmpty then [s]
  else (splitOnListAux sep.data (s.data.length + 1) s.data []).map String.mk

/-- Python substring test, sub in s, for a nonempty pattern. -/
def containsSub (s pat : String) : Bool := (pySplitOn s pat).length != 1

/-- Python s.count(sub): number of non-overlapping occurrences. -/
def countSub (s pat : String) : Nat := (pySplitOn s pat).length - 1

/-- Number of occurrences of a single character. -/
def countChar (s : String) (c : Char) : Nat := s.toList.countP (fun d => d == c)

/-- The apostrophe character, used to assemble the pattern strings of the
sources that contain one. -/
def apos : String := String.mk [Char.ofNat 39]

/-- The double-quote character. -/
def quoteChar : Char := Char.ofNat 34

/-- Sentence list used by the sources:
[s.strip() for s in re.split(r'[.!?]+', text) if s.strip()].
Splitting at every occurrence of . ! ? and keeping the stripped nonempty
pieces agrees with splitting on maximal runs of those characters. -/
def sentencesOf (text : String) : List String :=
  (((splitPredAux (fun c => c == '.' || c == '!' || c == '?') text.data []).map
    String.mk).map pyStrip).filter (fun s => s ≠ "")

/-- Paragraph list used by the sources:
[p.strip() for p in text.split('\n\n') if p.strip()]. -/
def paragraphsOf (text : String) : List String :=
  ((pySplitOn text "\n\n").map pyStrip).filter (fun s => s ≠ "")

/-- Stripped nonempty lines: [l.strip() for l in text.split('\n') if l.strip()]. -/
def strippedLinesOf (text : String) : List String :=
  ((pySplitOn text "\n").map pyStrip).filter (fun s => s ≠ "")

/-! ## Python round(x, ndigits)

Python round uses round-half-to-even.  pythonRoundInt is the integer version
on exact rationals; pythonRound2 and pythonRound1 round to 2 and 1 decimal
places. -/

/-- Round half to even of a rational to an integer (Python round(x)). -/
def pythonRoundInt (x : ℚ) : ℤ :=
  if x - ⌊x⌋ = 1 / 2 then (if Even ⌊x⌋ then ⌊x⌋ else ⌊x⌋ + 1) else round x

/-- Python round(x, 2) on exact rationals. -/
def pythonRound2 (x : ℚ) : ℚ := (pythonRoundInt (x * 100) : ℚ) / 100

/-- Python round(x, 1) on exact rationals. -/
def pythonRound1 (x : ℚ) : ℚ := (pythonRoundInt (x * 10) : ℚ) / 10

theorem floor_le_pythonRoundInt (x : ℚ) : ⌊x⌋ ≤ pythonRoundInt x := by
  unfold pythonRoundInt
  split
  · split
    · exact le_refl _
    · exact le_of_lt (lt_add_one _)
  · rw [round_eq]
    exact Int.floor_mono (by linarith [Int.floor_le x])

theorem pythonRoundInt_le_floor_add_one (x : ℚ) : pythonRoundInt x ≤ ⌊x⌋ + 1 := by
  unfold pythonRoundInt
  split
  · split
    · exact le_of_lt (lt_add_one _)
    · exact le_refl _
  · rw [round_eq]
    have h1 : x + 1 / 2 < (⌊x⌋ : ℚ) + 2 := by
      have := Int.lt_floor_add_one x
      linarith
    have h2 : ⌊x + 1 / 2⌋ < ⌊x⌋ + 2 := by
      rw [Int.floor_lt]
      push_cast
      linarith
    omega

theorem pythonRoundInt_eq_floor_add_one_imp {x : ℚ}
    (h : pythonRoundInt x = ⌊x⌋ + 1) : (⌊x⌋ : ℚ) + 1 / 2 ≤ x := by
  unfold pythonRoundInt at h
  by_cases htie : x - ⌊x⌋ = 1 / 2
  · linarith [htie]
  · rw [if_neg htie, round_eq] at h
    have : ((⌊x⌋ + 1 : ℤ) : ℚ) ≤ x + 1 / 2 := by
      rw [← h]
      exact Int.floor_le _
    push_cast at this
    linarith

theorem pythonRoundInt_of_half_lt {y : ℚ} (h : (⌊y⌋ : ℚ) + 1 / 2 < y) :
    pythonRoundInt y = ⌊y⌋ + 1 := by
  have htie : ¬ (y - ⌊y⌋ = 1 / 2) := by
    intro he
    linarith
  unfold pythonRoundInt
  rw [if_neg htie, round_eq]
  have hlow : ⌊y⌋ + 1 ≤ ⌊y + 1 / 2⌋ := by
    rw [Int.le_floor]
    push_cast
    linarith
  have hhigh : ⌊y + 1 / 2⌋ < ⌊y⌋ + 2 := by
    rw [Int.floor_lt]
    push_cast
    linarith [Int.lt_floor_add_one y]
  omega

theorem pythonRoundInt_mono {x y : ℚ} (h : x ≤ y) :
    pythonRoundInt x ≤ pythonRoundInt y := by
  rcases lt_or_eq_of_le (Int.floor_mono h) with hf | hf
  · calc pythonRoundInt x ≤ ⌊x⌋ + 1 := pythonRoundInt_le_floor_add_one x
      _ ≤ ⌊y⌋ := by omega
      _ ≤ pythonRoundInt y := floor_le_pythonRoundInt y
  · have hx := floor_le_pythonRoundInt x
    have hx' := pythonRoundInt_le_floor_add_one x
    rcases (by omega : pythonRoundInt x = ⌊x⌋ ∨ pythonRoundInt x = ⌊x⌋ + 1) with he | he
    · rw [he, hf]
      exact floor_le_pythonRoundInt y
    · have hhalf : (⌊x⌋ : ℚ) + 1 / 2 ≤ x := pythonRoundInt_eq_floor_add_one_imp he
      rcases lt_or_eq_of_le (le_trans hhalf h) with hy | hy
      · rw [he, hf]
        rw [hf] at hy
        exact ge_of_eq (pythonRoundInt_of_half_lt hy)
      · have hxy : x = y := le_antisymm h (by rw [← hy]; exact hhalf)
        rw [hxy]

theorem pythonRoundInt_intCast (n : ℤ) : pythonRoundInt (n : ℚ) = n := by
  unfold pythonRoundInt
  rw [Int.floor_intCast]
  have : ¬ ((n : ℚ) - n = 1 / 2) := by
    intro h
    simp at h
  rw [if_neg this, round_intCast]

theorem pythonRound2_mono {x y : ℚ} (h : x ≤ y) : pythonRound2 x ≤ pythonRound2 y := by
  unfold pythonRound2
  have := pythonRoundInt_mono (by linarith : x * 100 ≤ y * 100)
  have hc : ((pythonRoundInt (x * 100) : ℚ)) ≤ (pythonRoundInt (y * 100) : ℚ) := by
    exact_mod_cast this
  linarith

theorem pythonRound2_intCast (n : ℤ) : pythonRound2 (n : ℚ) = n := by
  unfold pythonRound2
  have : ((n : ℚ)) * 100 = ((n * 100 : ℤ) : ℚ) := by push_cast; ring
  rw [this, pythonRoundInt_intCast]
  push_cast
  field_simp

/-- Rounding to two decimals preserves integer bounds. -/
theorem pythonRound2_bounds {x : ℚ} {a b : ℤ} (h1 : (a : ℚ) ≤ x) (h2 : x ≤ (b : ℚ)) :
    (a : ℚ) ≤ pythonRound2 x ∧ pythonRound2 x ≤ (b : ℚ) := by
  constructor
  · have := pythonRound2_mono h1
    rwa [pythonRound2_intCast] at this
  · have := pythonRound2_mono h2
    rwa [pythonRound2_intCast] at this

/-! ## Character-level scanners for the regex counts used by the sources

Each scanner implements the leftmost non-overlapping matching of one specific
pattern.  They recurse on an explicit fuel argument bounded by the text
length, because a successful match advances the scan position by the match
length. -/

/-- A word boundary holds after a match ending in a word character exactly
when the next character is absent or not a word character. -/
def boundaryAfterOk : List Char → Bool
  | [] => true
  | c :: _ => !isWordChar c

/-- Scanner for an alternation of literal word-character-only alternatives,
each wrapped in word boundaries, as in \b(was|were|had|did|went|got)\b.
Alternatives are tried in order at every position that follows a non-word
character (or the start), exactly as the regex engine does. -/
def reCountAltsAux (alts : List (List Char)) : Nat → List Char → Bool → Nat
  | 0, _, _ => 0
  | _, [], _ => 0
  | fuel + 1, c :: cs, prevW =>
    match (if prevW then none
           else alts.find? fun a =>
             listStartsWith a (c :: cs) && boundaryAfterOk ((c :: cs).drop a.length)) with
    | some a => 1 + reCountAltsAux alts fuel ((c :: cs).drop a.length) true
    | none => reCountAltsAux alts fuel cs (isWordChar c)

/-- Count of matches of a word-boundary-wrapped alternation of literals. -/
def reCountAlts (alts : List String) (s : String) : Nat :=
  reCountAltsAux (alts.map String.toList) (s.length + 1) s.toList false

/-- Match of the number pattern \b\d+[%$]?\b|\$\d+ at one position.
prevW records whether the previous character was a word character (the first
branch needs a word boundary before the digits; the second branch has no
boundary).  Returns the number of characters consumed by the match. -/
def numberMatchAt (prevW : Bool) (s : List Char) : Option Nat :=
  let branch1 : Option Nat :=
    match s with
    | c :: _ =>
      if !prevW && c.isDigit then
        let ds := s.takeWhile Char.isDigit
        match s.drop ds.length with
        | [] => some ds.length
        | d :: rest =>
          if isWordChar d then none
          else if d == '%' || d == '$' then
            -- the optional [%$] is consumed only when a word character
            -- follows it (otherwise the final boundary fails and the
            -- engine backtracks to the boundary after the digits)
            match rest with
            | e :: _ => if isWordChar e then some (ds.length + 1) else some ds.length
            | [] => some ds.length
          else some ds.length
      else none
    | [] => none
  match branch1 with
  | some n => some n
  | none =>
    match s with
    | '$' :: rest =>
      let ds := rest.takeWhile Char.isDigit
      if ds.length > 0 then some (1 + ds.length) else none
    | _ => none

/-- Scanning loop for the number pattern. -/
def countNumbersAux : Nat → List Char → Bool → Nat
  | 0, _, _ => 0
  | _, [], _ => 0
  | fuel + 1, c :: cs, prevW =>
    match numberMatchAt prevW (c :: cs) with
    | some n => 1 + countNumbersAux fuel ((c :: cs).drop n) (isWordChar (((c :: cs).take n).getLastD c))
    | none => countNumbersAux fuel cs (isWordChar c)

/-- len(re.findall(r'\b\d+[%$]?\b|\$\d+', text)). -/
def countNumbers (text : String) : Nat :=
  countNumbersAux (text.length + 1) text.toList false

/-- Count of maximal runs of uppercase letters of length at least minLen that
are delimited by word boundaries: len(re.findall(r'\b[A-Z]{minLen,}\b', text)).
A run followed by another word character never matches (no shorter prefix can
satisfy the trailing boundary), so only boundary-delimited maximal runs count. -/
def countCapsRunsAux (minLen : Nat) : Nat → List Char → Bool → Nat
  | 0, _, _ => 0
  | _, [], _ => 0
  | fuel + 1, c :: cs, prevW =>
    if !prevW && c.isUpper then
      let run := (c :: cs).takeWhile Char.isUpper
      let rest := (c :: cs).drop run.length
      if run.length ≥ minLen && boundaryAfterOk rest then
        1 + countCapsRunsAux minLen fuel rest true
      else
        countCapsRunsAux minLen fuel cs (isWordChar c)
    else countCapsRunsAux minLen fuel cs (isWordChar c)

def countCapsRuns (minLen : Nat) (text : String) : Nat :=
  countCapsRunsAux minLen (text.length + 1) text.toList false

/-- re.search(r'[A-Z\s]{10,}:', text): is some run of at least ten uppercase
or whitespace characters immediately followed by a colon? -/
def hasCapsHeaderAux : List Char → Nat → Bool
  | [], _ => false
  | c :: cs, runLen =>
    if c.isUpper || c.isWhitespace then hasCapsHeaderAux cs (runLen + 1)
    else if c == ':' && runLen ≥ 10 then true
    else hasCapsHeaderAux cs 0

def hasCapsHeader (text : String) : Bool := hasCapsHeaderAux text.toList 0

/-- len(re.findall(r'(\w)\1{3,}', text)): number of maximal runs of one
repeated word character of length at least four (each match consumes the
whole run). -/
def countRepeatRunsAux : Nat → List Char → Nat
  | 0, _ => 0
  | _, [] => 0
  | fuel + 1, c :: cs =>
    if isWordChar c then
      let run := (c :: cs).takeWhile (fun d => d == c)
      (if run.length ≥ 4 then 1 else 0) + countRepeatRunsAux fuel ((c :: cs).drop run.length)
    else countRepeatRunsAux fuel cs

def countRepeatRuns (text : String) : Nat :=
  countRepeatRunsAux (text.length + 1) text.toList

/-- len(re.findall(r'\n\d+[\.\)]\s', text)): newline, digits, dot or closing
parenthesis, then one whitespace character (consumed by the match). -/
def countNumberedItemsAux : Nat → List Char → Nat
  | 0, _ => 0
  | _, [] => 0
  | fuel + 1, c :: cs =>
    (if c == '\n' then
      let ds := cs.takeWhile Char.isDigit
      if ds.length > 0 then
        match cs.drop ds.length with
        | p :: w :: rest =>
          if (p == '.' || p == ')') && w.isWhitespace then
            some (rest)
          else none
        | _ => none
      else none
    else none).elim (countNumberedItemsAux fuel cs) (fun rest => 1 + countNumberedItemsAux fuel rest)

def countNumberedItems (text : String) : Nat :=
  countNumberedItemsAux (text.length + 1) text.toList

/-- re.search(r'\n\d+\.', text): newline, digits, then a dot. -/
def hasNewlineNumDot : List Char → Bool
  | [] => false
  | c :: cs =>
    (c == '\n' &&
      (let ds := cs.takeWhile Char.isDigit
       ds.length > 0 &&
         match cs.drop ds.length with
         | '.' :: _ => true
         | _ => false)) || hasNewlineNumDot cs

/-- Match of one alternative of the time-reference pattern
\b(20\d{2}|years? ago|months? ago|last \w+|in \d{4})\b at one position
(boundary before already established).  Alternatives are tried in the order
they appear in the pattern; the result is the match length. -/
def timeRefMatchAt (s : List Char) : Option Nat :=
  match s with
  | '2' :: '0' :: d1 :: d2 :: rest =>
    if d1.isDigit && d2.isDigit && boundaryAfterOk rest then some 4 else timeRefMatchAtRest s
  | _ => timeRefMatchAtRest s
where
  timeRefMatchAtRest (s : List Char) : Option Nat :=
    if listStartsWith "years ago".toList s && boundaryAfterOk (s.drop 9) then some 9
    else if listStartsWith "year ago".toList s && boundaryAfterOk (s.drop 8) then some 8
    else if listStartsWith "months ago".toList s && boundaryAfterOk (s.drop 10) then some 10
    else if listStartsWith "month ago".toList s && boundaryAfterOk (s.drop 9) then some 9
    else if listStartsWith "last ".toList s then
      let run := (s.drop 5).takeWhile isWordChar
      if run.length > 0 then some (5 + run.length) else none
    else if listStartsWith "in ".toList s then
      match s.drop 3 with
      | a :: b :: c :: d :: rest =>
        if a.isDigit && b.isDigit && c.isDigit && d.isDigit && boundaryAfterOk rest
        then some 7 else none
      | _ => none
    else none

/-- Scanning loop for the time-reference pattern. -/
def timeRefCountAux : Nat → List Char → Bool → Nat
  | 0, _, _ => 0
  | _, [], _ => 0
  | fuel + 1, c :: cs, prevW =>
    match (if prevW then none else timeRefMatchAt (c :: cs)) with
    | some n => 1 + timeRefCountAux fuel ((c :: cs).drop n) (isWordChar (((c :: cs).take n).getLastD c))
    | none => timeRefCountAux fuel cs (isWordChar c)

/-- len(re.findall(r'\b(20\d{2}|years? ago|months? ago|last \w+|in \d{4})\b', s)). -/
def timeRefCount (s : String) : Nat :=
  timeRefCountAux (s.length + 1) s.toList false

/-! ## Caps-span scanner for the named-entity heuristic of uniqueness.py

Pattern \b[A-Z][a-z]+(?:\s+[A-Z][a-z]+)*\b, applied per sentence.  A span is
one uppercase letter followed by at least one lowercase letter ending at a
non-word character, greedily extended by whitespace plus further such words;
an extension word followed by another word character makes the engine
backtrack and end the span before it.  The scanner also records the starting
position of each span inside the sentence. -/

/-- Greedy extension of a caps span: cur is the length matched so far and s
the remaining characters.  Each extension consumes a whitespace run, one
uppercase letter and a maximal lowercase run that ends at a non-word
character. -/
def extendCapsSpan : Nat → Nat → List Char → Nat
  | 0, cur, _ => cur
  | _ + 1, cur, [] => cur
  | fuel + 1, cur, s =>
    let ws := s.takeWhile Char.isWhitespace
    if ws.length = 0 then cur
    else
      match s.drop ws.length with
      | u :: r2 =>
        if u.isUpper then
          let low := r2.takeWhile Char.isLower
          if low.length > 0 && boundaryAfterOk (r2.drop low.length) then
            extendCapsSpan fuel (cur + ws.length + 1 + low.length) (r2.drop low.length)
          else cur
        else cur
      | [] => cur

/-- Length of the caps span starting at this position (boundary before
already established), if any. -/
def capsSpanMatchAt (s : List Char) : Option Nat :=
  match s with
  | u :: rest =>
    if u.isUpper then
      let low := rest.takeWhile Char.isLower
      if low.length > 0 && boundaryAfterOk (rest.drop low.length) then
        some (extendCapsSpan (s.length + 1) (1 + low.length) (rest.drop low.length))
      else none
    else none
  | [] => none

/-- Scanning loop collecting (start position, matched text) pairs. -/
def capsSpansAux : Nat → Nat → List Char → Bool → List (Nat × String)
  | 0, _, _, _ => []
  | _, _, [], _ => []
  | fuel + 1, pos, c :: cs, prevW =>
    match (if prevW then none else capsSpanMatchAt (c :: cs)) with
    | some n =>
      (pos, String.mk ((c :: cs).take n)) ::
        capsSpansAux fuel (pos + n) ((c :: cs).drop n) true
    | none => capsSpansAux fuel (pos + 1) cs (isWordChar c)

/-- re.findall(r'\b[A-Z][a-z]+(?:\s+[A-Z][a-z]+)*\b', sent) with positions. -/
def capsSpansPos (sent : String) : List (Nat × String) :=
  capsSpansAux (sent.length + 1) 0 sent.toList false

/-- The matched span texts only. -/
def capsSpans (sent : String) : List String := (capsSpansPos sent).map Prod.snd

/-! ## SubstanceDetector (substance.py) -/

/-- Result record of SubstanceDetector.analyze_post. -/
structure SubstanceResult where
  total_score : ℚ
  information_density : ℚ
  depth_score : ℚ
  value_indicators : ℚ
  structure_score : ℚ
  penalties : ℚ
  classification : String
deriving DecidableEq, Repr

namespace SubstanceDetector

/-- The seven keyword categories of self.value_indicators (the category names
play no role in the scoring, only the keyword lists do). -/
def value_indicator_categories : List (List String) :=
  [["data", "statistics", "study", "research", "survey", "report", "analysis"],
   ["framework", "model", "strategy", "approach", "method", "process", "system"],
   ["example", "case study", "instance", "for example", "e.g.", "such as"],
   ["how to", "steps", "tactics", "tips", "guide", "implement", "apply"],
   ["%", "percent", "increase", "decrease", "roi", "revenue", "growth", "$"],
   ["learned", "discovered", "found", "realized", "insight", "lesson"],
   ["experience", "years", "worked", "built", "scaled", "led", "managed"]]

/-- self.shallow_indicators: the engagement-bait phrases. -/
def shallow_indicators : List String :=
  ["agree?", "thoughts?", "what do you think", "drop a", "comment below",
   "tag someone", "follow for more", "repost if"]

/-- The literal example patterns of _score_depth. -/
def example_patterns : List String :=
  ["for example", "for instance", "case study", "i worked", "we built",
   "i led", "i managed"]

/-- The experience words of _score_depth. -/
def experience_words : List String :=
  ["learned", "discovered", "realized", "found out", "experience"]

/-- The conclusion cues of _score_structure. -/
def conclusion_words : List String :=
  ["in conclusion", "summary", "bottom line", "key takeaway", "p.s."]

/-- The emoji class of _calculate_penalties:
the characters of the literal class [🔥💪👇✨🚀💯🎯⚡️📈].  The pair ⚡️ is the
bolt U+26A1 followed by the variation selector U+FE0F, so both characters are
members of the class. -/
def penalty_emoji : List Char :=
  ['🔥', '💪', '👇', '✨', '🚀', '💯', '🎯', '⚡', Char.ofNat 0xFE0F, '📈']

/-- _score_information_density (0-30). -/
def score_information_density (text : String) : ℚ :=
  let words := (pyWords text).length
  let wordTier : ℚ :=
    if words > 500 then 10
    else if words > 300 then 7
    else if words > 150 then 5
    else if words > 100 then 3
    else 0
  let sentences := sentencesOf text
  let sentenceBonus : ℚ :=
    if sentences.length ≠ 0 then
      let avg : ℚ := (words : ℚ) / (sentences.length : ℚ)
      if 15 ≤ avg ∧ avg ≤ 25 then 8
      else if 10 ≤ avg ∧ avg < 15 then 5
      else 0
    else 0
  let numberBonus : ℚ := min 7 ((countNumbers text : ℚ) * 1.5)
  let has_lists :=
    containsSub text "•" || hasNewlineNumDot text.toList || countSub text "\n-" > 2
  let listBonus : ℚ := if has_lists then 5 else 0
  min 30 (wordTier + sentenceBonus + numberBonus + listBonus)

/-- _score_depth (0-25). -/
def score_depth (text text_lower : String) : ℚ :=
  let exampleBonus : ℚ :=
    if example_patterns.any (fun p => containsSub text_lower p) then 3 else 0
  let expCount := experience_words.countP (fun w => containsSub text_lower w)
  let experienceBonus : ℚ := min 5 ((expCount : ℚ) * 2)
  let problemSolution : ℚ :=
    if containsSub text_lower "problem" && containsSub text_lower "solution" then 4 else 0
  let stepBonus : ℚ := min 8 ((countNumberedItems text : ℚ) * 1.5)
  let longWords := (pyWords text).countP (fun w => w.length > 10)
  let longWordBonus : ℚ := min 5 ((longWords : ℚ) * 0.3)
  min 25 (exampleBonus + experienceBonus + problemSolution + stepBonus + longWordBonus)

/-- _score_value_indicators (0-25). -/
def score_value_indicators (text_lower : String) : ℚ :=
  let catScore : List String → ℚ := fun keywords =>
    let found := keywords.countP (fun k => containsSub text_lower k)
    if found > 0 then min 4 ((found : ℚ) * 1.5) else 0
  min 25 ((value_indicator_categories.map catScore).sum)

/-- _score_structure (0-20). -/
def score_structure (text : String) : ℚ :=
  let paragraphs := paragraphsOf text
  let paragraphBonus : ℚ :=
    if paragraphs.length ≥ 3 then 5 else if paragraphs.length ≥ 2 then 3 else 0
  let first_line := ((pySplitOn text "\n").headD "")
  let openingBonus : ℚ :=
    if first_line.length < 150 ∧ first_line.length > 20 then 3 else 0
  let last_paragraph := paragraphs.getLastD ""
  let conclusionBonus : ℚ :=
    if conclusion_words.any (fun w => containsSub (pyLower last_paragraph) w) then 4 else 0
  let breakBonus : ℚ := if countChar text '\n' > 5 then 3 else 0
  let headerBonus : ℚ :=
    if hasCapsHeader text || countChar text '—' > 2 then 5 else 0
  min 20 (paragraphBonus + openingBonus + conclusionBonus + breakBonus + headerBonus)

/-- The engagement-bait part of _calculate_penalties: three points per
shallow indicator present in the lowercased text. -/
def bait_penalty (text_lower : String) : ℚ :=
  3 * (shallow_indicators.countP (fun p => containsSub text_lower p) : ℚ)

/-- _calculate_penalties (0-15, deducted). -/
def calculate_penalties (text_lower : String) : ℚ :=
  let emoji_count := text_lower.toList.countP (fun c => penalty_emoji.contains c)
  let emojiPenalty : ℚ := if emoji_count > 10 then 5 else if emoji_count > 5 then 2 else 0
  let word_count := (pyWords text_lower).length
  let shortPenalty : ℚ := if word_count < 100 then 5 else 0
  min 15 (bait_penalty text_lower + emojiPenalty + shortPenalty)

/-- _classify_substance. -/
def classify_substance (score : ℚ) : String :=
  if score ≥ 80 then "Exceptional Substance"
  else if score ≥ 65 then "High Substance"
  else if score ≥ 50 then "Moderate Substance"
  else if score ≥ 35 then "Low Substance"
  else "Minimal Substance"

/-- _create_result(score, reason): the zero record used for short posts. -/
def create_result (score : ℚ) (reason : String) : SubstanceResult :=
  { total_score := score
    information_density := 0
    depth_score := 0
    value_indicators := 0
    structure_score := 0
    penalties := 0
    classification := reason }

/-- SubstanceDetector.analyze_post. -/
def analyze_post (text : String) : SubstanceResult :=
  if text = "" ∨ (pyStrip text).length < 50 then create_result 0 "Too short"
  else
    let text_lower := pyLower text
    let info_density := score_information_density text
    let depth_score := score_depth text text_lower
    let value_score := score_value_indicators text_lower
    let structure_score := score_structure text
    let penalties := calculate_penalties text_lower
    let total_score :=
      max 0 (info_density + depth_score + value_score + structure_score - penalties)
    let normalized_score := min 100 total_score
    { total_score := pythonRound2 normalized_score
      information_density := pythonRound2 info_density
      depth_score := pythonRound2 depth_score
      value_indicators := pythonRound2 value_score
      structure_score := pythonRound2 structure_score
      penalties := pythonRound2 penalties
      classification := classify_substance normalized_score }

end SubstanceDetector

/-! ## QualityAssessor (quality.py) -/

/-- Interface of the external textstat library used by quality.py.
Modelled from the spec: the readability formulas (Flesch reading ease and
Flesch-Kincaid grade level) live in the third-party textstat package, not in
the repository sources; the spec only requires that each call either produces
a number or fails, with failure handled by the caller.  none models a raised
exception. -/
structure Textstat where
  flesch_reading_ease : String → Option ℚ
  flesch_kincaid_grade : String → Option ℚ

/-- Result record of QualityAssessor.analyze_post (the Python key structure
is the Lean field structure_score, structure being a reserved word). -/
structure QualityResult where
  total_score : ℚ
  readability : ℚ
  structure_score : ℚ
  professionalism : ℚ
  grammar_clarity : ℚ
  penalties : ℚ
  classification : String
  readability_grade : String
deriving DecidableEq, Repr

namespace QualityAssessor

/-- self.clickbait_patterns, with the two [\s-]? patterns expanded by the
helper below. -/
def clickbait_literals : List String :=
  ["you won" ++ apos ++ "t believe", "shocking", "this one trick",
   "what happened next", "blown away", "the secret to",
   "everyone is talking about"]

/-- Does the pattern a[\s-]?b match at the head of s: a directly followed by
b, or a and b separated by exactly one whitespace or hyphen character? -/
def sepPairAt (a b : List Char) (s : List Char) : Bool :=
  listStartsWith a s &&
    (let r := s.drop a.length
     listStartsWith b r ||
       match r with
       | c :: r2 => (c.isWhitespace || c == '-') && listStartsWith b r2
       | [] => false)

/-- re.search of a[\s-]?b anywhere in s (mind[\s-]?blown, game[\s-]?changer). -/
def containsSepPairAux (a b : List Char) : List Char → Bool
  | [] => false
  | c :: cs => sepPairAt a b (c :: cs) || containsSepPairAux a b cs

def containsSepPair (s a b : String) : Bool :=
  containsSepPairAux a.toList b.toList s.toList

/-- self.professional_words. -/
def professional_words : List String :=
  ["strategy", "implement", "framework", "optimize", "leverage",
   "scalable", "metrics", "efficiency", "revenue", "growth",
   "innovation", "transformation", "execution", "alignment"]

/-- self.spam_indicators. -/
def spam_indicators : List String :=
  ["dm me", "link in bio", "click here", "limited time", "act now",
   "buy now", "cheap", "make money fast"]

/-- The transition words of _score_structure. -/
def transition_words : List String :=
  ["however", "therefore", "additionally", "furthermore",
   "first", "second", "finally", "in conclusion"]

end QualityAssessor

/-- Membership in the emoji class [😀-🙏🌀-🗿🚀-🛿] of quality.py
(codepoint ranges 1F600-1F64F, 1F300-1F5FF, 1F680-1F6FF). -/
def isEmojiQual (c : Char) : Bool :=
  decide ((0x1F600 ≤ c.toNat ∧ c.toNat ≤ 0x1F64F) ∨
          (0x1F300 ≤ c.toNat ∧ c.toNat ≤ 0x1F5FF) ∨
          (0x1F680 ≤ c.toNat ∧ c.toNat ≤ 0x1F6FF))

/-- Decimal rendering of an integer number of tenths, as Python prints a
float rounded to one decimal. -/
def renderTenths (n : ℤ) : String :=
  if n < 0 then "-" ++ toString ((-n).toNat / 10) ++ "." ++ toString ((-n).toNat % 10)
  else toString (n.toNat / 10) ++ "." ++ toString (n.toNat % 10)

namespace QualityAssessor

/-- _score_readability (0-25).  The whole try block is replaced by the fixed
neutral 12 when either textstat formula fails; the sentence-variation term is
pure arithmetic and cannot fail.  The condition std_dev > 5 on a nonnegative
variance is expressed as variance > 25. -/
def score_readability (ts : Textstat) (text : String) : ℚ :=
  let score : ℚ :=
    match ts.flesch_reading_ease text, ts.flesch_kincaid_grade text with
    | some flesch, some grade_level =>
      let fleschBand : ℚ :=
        if 50 ≤ flesch ∧ flesch ≤ 70 then 10
        else if (40 ≤ flesch ∧ flesch < 50) ∨ (70 < flesch ∧ flesch ≤ 80) then 7
        else if flesch > 30 then 4
        else 0
      let gradeBand : ℚ :=
        if 8 ≤ grade_level ∧ grade_level ≤ 12 then 10
        else if (6 ≤ grade_level ∧ grade_level < 8) ∨ (12 < grade_level ∧ grade_level ≤ 14) then 7
        else if grade_level < 16 then 4
        else 0
      let sentences := sentencesOf text
      let variationBonus : ℚ :=
        if sentences.length > 1 then
          let lens := sentences.map (fun s => ((pyWords s).length : ℚ))
          let avg := lens.sum / (lens.length : ℚ)
          let variance := (lens.map (fun x => (x - avg) ^ 2)).sum / (lens.length : ℚ)
          if variance > 25 then 5 else 0
        else 0
      fleschBand + gradeBand + variationBonus
    | _, _ => 12
  min 25 score

/-- _score_structure (0-25). -/
def score_structure (text : String) : ℚ :=
  let paragraphs := paragraphsOf text
  let line_breaks := countChar text '\n'
  let paragraphBonus : ℚ :=
    if paragraphs.length ≥ 3 then 6 else if paragraphs.length ≥ 2 then 4 else 0
  let breakBonus : ℚ := if line_breaks ≥ 5 then 4 else 0
  let lines := strippedLinesOf text
  let openingBonus : ℚ :=
    match lines with
    | first_line :: _ =>
      let wc := (pyWords first_line).length
      if 5 ≤ wc ∧ wc ≤ 20 then 5 else 0
    | [] => 0
  let has_bullets := containsSub text "•" || countSub text "\n-" ≥ 2
  let has_numbers := countNumberedItems text > 0
  let listBonus : ℚ := if has_bullets || has_numbers then 5 else 0
  let transitions_found := transition_words.countP (fun w => containsSub (pyLower text) w)
  let transitionBonus : ℚ := min 5 ((transitions_found : ℚ) * 1.5)
  min 25 (paragraphBonus + breakBonus + openingBonus + listBonus + transitionBonus)

/-- _score_professionalism (0-25, base 15). -/
def score_professionalism (text text_lower : String) : ℚ :=
  let prof_word_count := professional_words.countP (fun w => containsSub text_lower w)
  let vocabBonus : ℚ := min 5 ((prof_word_count : ℚ) * 0.8)
  let emoji_count := text.toList.countP isEmojiQual
  let emojiAdj : ℚ :=
    if emoji_count = 0 then 3
    else if 1 ≤ emoji_count ∧ emoji_count ≤ 5 then 2
    else if emoji_count > 10 then -3
    else 0
  let caps_words := countCapsRuns 3 text
  let capsAdj : ℚ := if caps_words > 5 then -3 else 0
  let signoffBonus : ℚ :=
    if containsSub text_lower "p.s." || containsSub text_lower "best regards" ||
       containsSub text_lower "cheers" then 2 else 0
  min 25 (max 0 (15 + vocabBonus + emojiAdj + capsAdj + signoffBonus))

/-- The past and present tense markers of _score_grammar_clarity. -/
def past_markers : List String := ["was", "were", "had", "did", "went", "got"]

def present_markers : List String := ["is", "are", "have", "do", "goes", "get"]

/-- _score_grammar_clarity (0-25, base 15; only bonuses are added). -/
def score_grammar_clarity (text : String) : ℚ :=
  let lines := ((pySplitOn text "\n").map pyStrip).filter
    (fun l => l ≠ "" && l.length > 10)
  let complete_sentences := lines.countP (fun l =>
    let c := l.toList.getLastD ' '
    c == '.' || c == '!' || c == '?')
  let completeBonus : ℚ :=
    if (complete_sentences : ℚ) / (max lines.length 1 : ℚ) > 0.7 then 5 else 0
  let sentences := sentencesOf text
  let long_sentences := sentences.countP (fun s => (pyWords s).length > 40)
  let runOnBonus : ℚ :=
    if (long_sentences : ℚ) / (max sentences.length 1 : ℚ) < 0.2 then 3 else 0
  let words := (pyWords text).length
  let commas := countChar text ','
  let commaRate : ℚ := (commas : ℚ) / (max words 1 : ℚ) * 100
  let commaBonus : ℚ := if 1 ≤ commaRate ∧ commaRate ≤ 4 then 3 else 0
  let past := reCountAlts past_markers (pyLower text)
  let present := reCountAlts present_markers (pyLower text)
  let tenseBonus : ℚ :=
    if past + present > 0 then
      let dominant := max past present
      if (dominant : ℚ) / ((past + present : ℕ) : ℚ) > 0.7 then 4 else 0
    else 0
  min 25 (15 + completeBonus + runOnBonus + commaBonus + tenseBonus)

/-- _calculate_penalties (0-20, deducted). -/
def calculate_penalties (text text_lower : String) : ℚ :=
  let clickbait_count :=
    clickbait_literals.countP (fun p => containsSub text_lower p) +
      (if containsSepPair text_lower "mind" "blown" then 1 else 0) +
      (if containsSepPair text_lower "game" "changer" then 1 else 0)
  let spam_count := spam_indicators.countP (fun p => containsSub text_lower p)
  let punctPenalty : ℚ :=
    if countSub text "!!!" > 0 || countSub text "???" > 0 then 3 else 0
  let capsPenalty : ℚ := if countCapsRuns 4 text > 3 then 4 else 0
  let typoPenalty : ℚ := (countRepeatRuns text_lower : ℚ) * 2
  min 20 ((clickbait_count : ℚ) * 4 + (spam_count : ℚ) * 5 + punctPenalty +
    capsPenalty + typoPenalty)

/-- _classify_quality. -/
def classify_quality (score : ℚ) : String :=
  if score ≥ 85 then "Exceptional Quality"
  else if score ≥ 70 then "High Quality"
  else if score ≥ 55 then "Good Quality"
  else if score ≥ 40 then "Moderate Quality"
  else "Low Quality"

/-- _get_readability_grade. -/
def get_readability_grade (ts : Textstat) (text : String) : String :=
  match ts.flesch_kincaid_grade text with
  | some grade => "Grade " ++ renderTenths (pythonRoundInt (grade * 10))
  | none => "N/A"

/-- _create_result(score, reason). -/
def create_result (score : ℚ) (reason : String) : QualityResult :=
  { total_score := score
    readability := 0
    structure_score := 0
    professionalism := 0
    grammar_clarity := 0
    penalties := 0
    classification := reason
    readability_grade := "N/A" }

/-- QualityAssessor.analyze_post. -/
def analyze_post (ts : Textstat) (text : String) : QualityResult :=
  if text = "" ∨ (pyStrip text).length < 30 then create_result 0 "Too short"
  else
    let text_lower := pyLower text
    let readability := score_readability ts text
    let structureS := score_structure text
    let professionalism := score_professionalism text text_lower
    let grammar := score_grammar_clarity text
    let penalties := calculate_penalties text text_lower
    let total_score := max 0 (readability + structureS + professionalism + grammar - penalties)
    let normalized_score := min 100 total_score
    { total_score := pythonRound2 normalized_score
      readability := pythonRound2 readability
      structure_score := pythonRound2 structureS
      professionalism := pythonRound2 professionalism
      grammar_clarity := pythonRound2 grammar
      penalties := pythonRound2 penalties
      classification := classify_quality normalized_score
      readability_grade := get_readability_grade ts text }

end QualityAssessor

/-! ## CorpusIndex (TF-IDF vector space of uniqueness.py)

Modelled from the spec: prepare_corpus delegates to the external sklearn
library (TfidfVectorizer with max_features=500, english stop words,
ngram_range=(1,2), min_df=2, and cosine_similarity), which is not part of
the repository sources.  Per the spec, the vector space keeps the top 500
informative unigram and bigram terms that occur in at least two documents,
excluding stop words, and enters a disabled state (tfidf_matrix = None,
via the except branch around fit_transform) when the pruned vocabulary is
empty.  Document vectors are represented by their term counts; the idf
weighting and l2 normalisation of the library only rescale the vectors and
are folded into the similarity function parameter of score_similarity,
since no property proved here depends on the numeric similarity values. -/

/-- Maximal runs of word characters. -/
def wordRunsAux : Nat → List Char → List (List Char)
  | 0, _ => []
  | _, [] => []
  | fuel + 1, c :: cs =>
    if isWordChar c then
      let run := (c :: cs).takeWhile isWordChar
      run :: wordRunsAux fuel ((c :: cs).drop run.length)
    else wordRunsAux fuel cs

/-- The word tokens of a text, in original case. -/
def wordTokens (s : String) : List String :=
  (wordRunsAux (s.length + 1) s.toList).map String.mk

/-- The sklearn token pattern: lowercased maximal word runs of length at
least two. -/
def sklearnTokens (doc : String) : List String :=
  ((wordRunsAux (doc.length + 1) (pyLower doc).toList).filter
    (fun r => r.length ≥ 2)).map String.mk

/-- Modelled from the spec: a representative subset of the english stop-word
list applied by the library (the exact frozen list is internal to sklearn;
only the exclusion of common function words matters to the spec). -/
def englishStopWords : List String :=
  ["the", "and", "is", "are", "was", "were", "be", "been", "to", "of", "in",
   "on", "at", "for", "with", "that", "this", "these", "those", "it", "its",
   "as", "by", "an", "or", "not", "no", "but", "if", "then", "than", "so",
   "we", "you", "your", "they", "their", "he", "she", "his", "her", "my",
   "me", "our", "us", "from", "have", "has", "had", "do", "does", "did",
   "will", "would", "can", "could", "there", "here", "what", "when", "who",
   "how", "all", "any", "both", "each", "more", "most", "other", "some",
   "such", "only", "own", "same", "very"]

/-- Unigram and bigram terms of one document after stop-word removal. -/
def corpusTerms (doc : String) : List String :=
  let filtered := (sklearnTokens doc).filter (fun t => !(englishStopWords.contains t))
  let bigrams := (filtered.zip filtered.tail).map (fun p => p.1 ++ " " ++ p.2)
  filtered ++ bigrams

/-- Document frequency of a term. -/
def docFreq (docs : List String) (t : String) : Nat :=
  docs.countP (fun d => (corpusTerms d).contains t)

/-- Total corpus frequency of a term (used for the max_features selection). -/
def corpusCount (docs : List String) (t : String) : Nat :=
  ((docs.map corpusTerms).flatten).count t

/-- Insertion into a list sorted by descending key. -/
def insertDescBy (key : String → Nat) (t : String) : List String → List String
  | [] => [t]
  | h :: r => if key h ≤ key t then t :: h :: r else h :: insertDescBy key t r

/-- Sort by descending key. -/
def sortDescBy (key : String → Nat) (l : List String) : List String :=
  l.foldr (insertDescBy key) []

/-- The pruned vocabulary: distinct terms occurring in at least two
documents, the 500 most frequent kept. -/
def vocabulary (docs : List String) : List String :=
  (sortDescBy (corpusCount docs)
    (((docs.map corpusTerms).flatten).dedup.filter (fun t => 2 ≤ docFreq docs t))).take 500

/-- UniquenessDetector.prepare_corpus: the term-count matrix over the pruned
vocabulary, or none when the vocabulary is empty (fit_transform raises and
the except branch leaves tfidf_matrix = None). -/
def prepare_corpus (docs : List String) : Option (List (List Nat)) :=
  let vocab := vocabulary docs
  if vocab.isEmpty then none
  else some (docs.map (fun d => vocab.map (fun t => (corpusTerms d).count t)))

/-! ## UniquenessDetector (uniqueness.py) -/

/-- Result record of UniquenessDetector.analyze_post. -/
structure UniquenessResult where
  total_score : ℚ
  personal_story : ℚ
  original_thinking : ℚ
  specificity : ℚ
  uniqueness_vs_corpus : ℚ
  penalties : ℚ
  classification : String
deriving DecidableEq, Repr

namespace UniquenessDetector

/-- self.generic_phrases. -/
def generic_phrases : List String :=
  ["i was scrolling through linkedin", "can we talk about", "let me tell you",
   "here" ++ apos ++ "s the thing", "hot take", "unpopular opinion",
   "change my mind", "this is your sign", "normalize",
   "it" ++ apos ++ "s time to", "stop doing", "start doing"]

/-- self.personal_indicators. -/
def personal_indicators : List String :=
  ["my story", "i remember", "years ago", "when i was", "i learned",
   "i discovered", "i failed", "i succeeded", "my first", "my experience",
   "i worked at", "at my company"]

/-- self.originality_indicators. -/
def originality_indicators : List String :=
  ["i believe", "in my view", "i" ++ apos ++ "ve found",
   "i" ++ apos ++ "ve noticed", "my approach", "i developed", "i created",
   "i built"]

/-- The contrarian markers of _score_originality. -/
def contrarian_markers : List String :=
  ["contrary to", "unlike most", "different from", "instead of",
   "rather than", "not what you think", "surprisingly"]

/-- The specific action verbs of _score_specificity. -/
def specific_actions : List String :=
  ["implemented", "designed", "architected", "optimized", "analyzed",
   "developed", "launched", "scaled", "built"]

/-- The buzzwords of _calculate_penalties. -/
def buzzwords : List String :=
  ["game changer", "game-changer", "paradigm shift", "disrupt", "synergy",
   "leverage", "circle back", "low hanging fruit", "move the needle",
   "think outside the box"]

/-- The personal pronoun count
len(re.findall(r'\b(i|my|me|i\'m|i\'ve|i\'ll)\b', text_lower)).
The primed alternatives are unreachable: whenever one of them could match,
the plain i alternative, tried first, already matches (the apostrophe is not
a word character, so the boundary after the i holds), so only i, my and me
contribute. -/
def pronoun_count (text_lower : String) : Nat :=
  reCountAlts ["i", "my", "me"] text_lower

/-- The distinct capitalized spans collected by the named-entity heuristic of
_score_personal_story: the text is split on ". ", the first piece is skipped
entirely, and the caps spans of the remaining pieces are accumulated and
deduplicated. -/
def entity_count (text : String) : Nat :=
  ((((pySplitOn text ". ").drop 1).foldl (fun acc s => acc ++ capsSpans s) []).dedup).length

/-- The proper-noun-density bonus of _score_personal_story. -/
def entity_bonus (text : String) : ℚ := min 6 ((entity_count text : ℚ) * 0.8)

/-- _score_personal_story (0-25). -/
def score_personal_story (text text_lower : String) : ℚ :=
  let pronounBonus : ℚ := min 6 ((pronoun_count text_lower : ℚ) * 0.3)
  let personal_count := personal_indicators.countP (fun p => containsSub text_lower p)
  let narrativeBonus : ℚ := min 8 ((personal_count : ℚ) * 2.5)
  let time_refs := timeRefCount text_lower
  let timeBonus : ℚ := min 5 ((time_refs : ℚ) * 2)
  min 25 (pronounBonus + narrativeBonus + timeBonus + entity_bonus text)

/-- _score_originality (0-25). -/
def score_originality (text text_lower : String) : ℚ :=
  let orig_count := originality_indicators.countP (fun p => containsSub text_lower p)
  let origBonus : ℚ := min 8 ((orig_count : ℚ) * 2.5)
  let contrarian_count := contrarian_markers.countP (fun p => containsSub text_lower p)
  let contrarianBonus : ℚ := min 6 ((contrarian_count : ℚ) * 3)
  let questions := countChar text '?'
  let questionBonus : ℚ := min 5 ((questions : ℚ) * 1.5)
  let rare_words := (pyWords text_lower).countP (fun w => w.length > 12)
  let rareBonus : ℚ := min 6 ((rare_words : ℚ) * 0.8)
  min 25 (origBonus + contrarianBonus + questionBonus + rareBonus)

/-- Does a word token match \b[A-Z][a-z]+[A-Z]\w*\b (a CamelCase brand
term)?  The trailing \w* absorbs the rest of the token, so the whole token
is the match. -/
def isBranded (w : String) : Bool :=
  match w.toList with
  | c :: rest =>
    c.isUpper &&
      (let low := rest.takeWhile Char.isLower
       low.length > 0 &&
         match rest.drop low.length with
         | d :: _ => d.isUpper
         | [] => false)
  | [] => false

/-- _score_specificity (0-25). -/
def score_specificity (text text_lower : String) : ℚ :=
  let numberBonus : ℚ := min 8 ((countNumbers text : ℚ) * 1.5)
  let branded := ((wordTokens text).filter isBranded).dedup.length
  let brandedBonus : ℚ := min 5 ((branded : ℚ) * 2)
  let action_count := specific_actions.countP (fun a => containsSub text_lower a)
  let actionBonus : ℚ := min 6 ((action_count : ℚ) * 2)
  let word_lengths := (pyWords text_lower).map (fun w => (w.length : ℚ))
  let avg_word_length : ℚ :=
    if word_lengths.length ≠ 0 then word_lengths.sum / (word_lengths.length : ℚ) else 0
  let lengthBonus : ℚ :=
    if avg_word_length > 5.5 then 6 else if avg_word_length > 5 then 4 else 0
  min 25 (numberBonus + brandedBonus + actionBonus + lengthBonus)

/-- _score_similarity (0-25).  The cosine similarity of the library over the
(rescaled) count vectors is the parameter sim.  An out-of-range post index
raises IndexError inside the try, caught and turned into 12.5.  With a valid
index, the self-similarity entry is removed before averaging; an empty
remainder gives np.mean([]) = NaN, all of whose band comparisons are false,
so the final else branch yields 5. -/
def score_similarity (tfidf : Option (List (List Nat)))
    (sim : List Nat → List Nat → ℚ) (post_index : Nat) : ℚ :=
  match tfidf with
  | none => 12.5
  | some matrix =>
    if post_index < matrix.length then
      let post_vector := matrix.getD post_index []
      let similarities := (matrix.map (sim post_vector)).eraseIdx post_index
      if similarities.isEmpty then 5
      else
        let avg_similarity := similarities.sum / (similarities.length : ℚ)
        if avg_similarity < 0.1 then 25
        else if avg_similarity < 0.2 then 20
        else if avg_similarity < 0.3 then 15
        else if avg_similarity < 0.4 then 10
        else 5
    else 12.5

/-- _calculate_penalties (0-15, deducted). -/
def calculate_penalties (text_lower : String) : ℚ :=
  let generic_count := generic_phrases.countP (fun p => containsSub text_lower p)
  let buzzword_count := buzzwords.countP (fun b => containsSub text_lower b)
  let has_quotes := text_lower.toList.contains quoteChar
  let no_attribution := !(containsSub text_lower "said")
  let is_short := text_lower.length < 200
  let quotePenalty : ℚ := if has_quotes && no_attribution && is_short then 3 else 0
  let copyPenalty : ℚ :=
    if containsSub text_lower "credit:" || containsSub text_lower "source:" ||
       containsSub text_lower "via:" then 4 else 0
  min 15 ((generic_count : ℚ) * 3 + (buzzword_count : ℚ) * 2 + quotePenalty + copyPenalty)

/-- _classify_uniqueness. -/
def classify_uniqueness (score : ℚ) : String :=
  if score ≥ 80 then "Highly Unique"
  else if score ≥ 65 then "Very Unique"
  else if score ≥ 50 then "Moderately Unique"
  else if score ≥ 35 then "Somewhat Generic"
  else "Very Generic"

/-- _create_result(score, reason). -/
def create_result (score : ℚ) (reason : String) : UniquenessResult :=
  { total_score := score
    personal_story := 0
    original_thinking := 0
    specificity := 0
    uniqueness_vs_corpus := 0
    penalties := 0
    classification := reason }

/-- UniquenessDetector.analyze_post, with the prepared corpus state (the
tfidf_matrix field) and the library similarity function passed explicitly. -/
def analyze_post (tfidf : Option (List (List Nat)))
    (sim : List Nat → List Nat → ℚ) (text : String) (post_index : Option Nat) :
    UniquenessResult :=
  if text = "" ∨ (pyStrip text).length < 30 then create_result 0 "Too short"
  else
    let text_lower := pyLower text
    let personal_score := score_personal_story text text_lower
    let originality_score := score_originality text text_lower
    let specificity_score := score_specificity text text_lower
    let similarity_score :=
      match post_index with
      | some i => score_similarity tfidf sim i
      | none => 12.5
    let penalties := calculate_penalties text_lower
    let total_score :=
      max 0 (personal_score + originality_score + specificity_score +
        similarity_score - penalties)
    let normalized_score := min 100 total_score
    { total_score := pythonRound2 normalized_score
      personal_story := pythonRound2 personal_score
      original_thinking := pythonRound2 originality_score
      specificity := pythonRound2 specificity_score
      uniqueness_vs_corpus := pythonRound2 similarity_score
      penalties := pythonRound2 penalties
      classification := classify_uniqueness normalized_score }

end UniquenessDetector

/-! ## Composite score (master_analysis.py, analyze_all_content) -/

/-- The composite score of analyze_all_content: the weighted blend of the
three total scores, rounded to two decimals.  A pure function of the three
rational inputs: the three scorer records are read, never written. -/
def composite_score (substance_total quality_total uniqueness_total : ℚ) : ℚ :=
  pythonRound2 (substance_total * 0.35 + quality_total * 0.30 + uniqueness_total * 0.35)

/-! ## Bounds of the component scores -/

/-- A capped nonnegative score lies between 0 and its cap. -/
theorem capped_mem {cap s : ℚ} (hcap : 0 ≤ cap) (hs : 0 ≤ s) :
    0 ≤ min cap s ∧ min cap s ≤ cap :=
  ⟨le_min hcap hs, min_le_left _ _⟩

theorem pythonRound2_ge (n : ℤ) {x b : ℚ} (hb : (n : ℚ) = b) (h : b ≤ x) :
    b ≤ pythonRound2 x := by
  subst hb
  have := pythonRound2_mono h
  rwa [pythonRound2_intCast] at this

theorem pythonRound2_le (n : ℤ) {x b : ℚ} (hb : (n : ℚ) = b) (h : x ≤ b) :
    pythonRound2 x ≤ b := by
  subst hb
  have := pythonRound2_mono h
  rwa [pythonRound2_intCast] at this

namespace SubstanceDetector

theorem score_information_density_mem (text : String) :
    0 ≤ score_information_density text ∧ score_information_density text ≤ 30 := by
  unfold score_information_density
  dsimp only
  exact capped_mem (by norm_num) (by positivity)

theorem score_depth_mem (text text_lower : String) :
    0 ≤ score_depth text text_lower ∧ score_depth text text_lower ≤ 25 := by
  unfold score_depth
  dsimp only
  exact capped_mem (by norm_num) (by positivity)

theorem score_value_indicators_mem (text_lower : String) :
    0 ≤ score_value_indicators text_lower ∧ score_value_indicators text_lower ≤ 25 := by
  unfold score_value_indicators
  dsimp only
  refine capped_mem (by norm_num) ?_
  refine List.sum_nonneg ?_
  intro x hx
  rcases List.mem_map.mp hx with ⟨ks, _, rfl⟩
  positivity

theorem substance_structure_mem (text : String) :
    0 ≤ score_structure text ∧ score_structure text ≤ 20 := by
  unfold score_structure
  dsimp only
  exact capped_mem (by norm_num) (by positivity)

theorem substance_penalties_mem (text_lower : String) :
    0 ≤ calculate_penalties text_lower ∧ calculate_penalties text_lower ≤ 15 := by
  unfold calculate_penalties bait_penalty
  dsimp only
  exact capped_mem (by norm_num) (by positivity)

end SubstanceDetector

namespace QualityAssessor

theorem score_readability_mem (ts : Textstat) (text : String) :
    0 ≤ score_readability ts text ∧ score_readability ts text ≤ 25 := by
  unfold score_readability
  dsimp only
  refine capped_mem (by norm_num) ?_
  rcases ts.flesch_reading_ease text with _ | f
  · norm_num
  · rcases ts.flesch_kincaid_grade text with _ | g
    · norm_num
    · dsimp only
      positivity

theorem quality_structure_mem (text : String) :
    0 ≤ score_structure text ∧ score_structure text ≤ 25 := by
  unfold score_structure
  dsimp only
  refine capped_mem (by norm_num) ?_
  have h : (0 : ℚ) ≤
      match strippedLinesOf text with
      | first_line :: _ =>
        if 5 ≤ (pyWords first_line).length ∧ (pyWords first_line).length ≤ 20 then 5 else 0
      | [] => 0 := by
    rcases strippedLinesOf text with _ | ⟨l, ls⟩
    · norm_num
    · dsimp only
      positivity
  positivity

theorem score_professionalism_mem (text text_lower : String) :
    0 ≤ score_professionalism text text_lower ∧ score_professionalism text text_lower ≤ 25 := by
  unfold score_professionalism
  dsimp only
  exact capped_mem (by norm_num) (le_max_left _ _)

theorem score_grammar_clarity_mem (text : String) :
    0 ≤ score_grammar_clarity text ∧ score_grammar_clarity text ≤ 25 := by
  unfold score_grammar_clarity
  dsimp only
  exact capped_mem (by norm_num) (by positivity)

theorem quality_penalties_mem (text text_lower : String) :
    0 ≤ calculate_penalties text text_lower ∧ calculate_penalties text text_lower ≤ 20 := by
  unfold calculate_penalties
  dsimp only
  exact capped_mem (by norm_num) (by positivity)

end QualityAssessor

namespace UniquenessDetector

theorem score_personal_story_mem (text text_lower : String) :
    0 ≤ score_personal_story text text_lower ∧ score_personal_story text text_lower ≤ 25 := by
  unfold score_personal_story entity_bonus
  dsimp only
  exact capped_mem (by norm_num) (by positivity)

theorem score_originality_mem (text text_lower : String) :
    0 ≤ score_originality text text_lower ∧ score_originality text text_lower ≤ 25 := by
  unfold score_originality
  dsimp only
  exact capped_mem (by norm_num) (by positivity)

theorem score_specificity_mem (text text_lower : String) :
    0 ≤ score_specificity text text_lower ∧ score_specificity text text_lower ≤ 25 := by
  unfold score_specificity
  dsimp only
  exact capped_mem (by norm_num) (by positivity)

theorem score_similarity_mem (tfidf : Option (List (List Nat)))
    (sim : List Nat → List Nat → ℚ) (post_index : Nat) :
    0 ≤ score_similarity tfidf sim post_index ∧
      score_similarity tfidf sim post_index ≤ 25 := by
  unfold score_similarity
  rcases tfidf with _ | matrix
  · norm_num
  · dsimp only
    split_ifs <;> norm_num

theorem uniqueness_penalties_mem (text_lower : String) :
    0 ≤ calculate_penalties text_lower ∧ calculate_penalties text_lower ≤ 15 := by
  unfold calculate_penalties
  dsimp only
  exact capped_mem (by norm_num) (by positivity)

end UniquenessDetector

/-- The documented bounds of a substance record: every component within its
[0, max] range and the total within [0, 100]. -/
def SubstanceInBounds (r : SubstanceResult) : Prop :=
  0 ≤ r.information_density ∧ r.information_density ≤ 30 ∧
  0 ≤ r.depth_score ∧ r.depth_score ≤ 25 ∧
  0 ≤ r.value_indicators ∧ r.value_indicators ≤ 25 ∧
  0 ≤ r.structure_score ∧ r.structure_score ≤ 20 ∧
  0 ≤ r.penalties ∧ r.penalties ≤ 15 ∧
  0 ≤ r.total_score ∧ r.total_score ≤ 100

/-- The documented bounds of a quality record. -/
def QualityInBounds (r : QualityResult) : Prop :=
  0 ≤ r.readability ∧ r.readability ≤ 25 ∧
  0 ≤ r.structure_score ∧ r.structure_score ≤ 25 ∧
  0 ≤ r.professionalism ∧ r.professionalism ≤ 25 ∧
  0 ≤ r.grammar_clarity ∧ r.grammar_clarity ≤ 25 ∧
  0 ≤ r.penalties ∧ r.penalties ≤ 20 ∧
  0 ≤ r.total_score ∧ r.total_score ≤ 100

/-- The documented bounds of a uniqueness record. -/
def UniquenessInBounds (r : UniquenessResult) : Prop :=
  0 ≤ r.personal_story ∧ r.personal_story ≤ 25 ∧
  0 ≤ r.original_thinking ∧ r.original_thinking ≤ 25 ∧
  0 ≤ r.specificity ∧ r.specificity ≤ 25 ∧
  0 ≤ r.uniqueness_vs_corpus ∧ r.uniqueness_vs_corpus ≤ 25 ∧
  0 ≤ r.penalties ∧ r.penalties ≤ 15 ∧
  0 ≤ r.total_score ∧ r.total_score ≤ 100

theorem substance_record_bounds (text : String) :
    SubstanceInBounds (SubstanceDetector.analyze_post text) := by
  unfold SubstanceDetector.analyze_post
  split
  · norm_num [SubstanceDetector.create_result, SubstanceInBounds]
  · unfold SubstanceInBounds
    dsimp only
    refine ⟨?_, ?_, ?_, ?_, ?_, ?_, ?_, ?_, ?_, ?_, ?_, ?_⟩
    · exact pythonRound2_ge 0 (by norm_num) (SubstanceDetector.score_information_density_mem text).1
    · exact pythonRound2_le 30 (by norm_num) (SubstanceDetector.score_information_density_mem text).2
    · exact pythonRound2_ge 0 (by norm_num) (SubstanceDetector.score_depth_mem text (pyLower text)).1
    · exact pythonRound2_le 25 (by norm_num) (SubstanceDetector.score_depth_mem text (pyLower text)).2
    · exact pythonRound2_ge 0 (by norm_num) (SubstanceDetector.score_value_indicators_mem (pyLower text)).1
    · exact pythonRound2_le 25 (by norm_num) (SubstanceDetector.score_value_indicators_mem (pyLower text)).2
    · exact pythonRound2_ge 0 (by norm_num) (SubstanceDetector.substance_structure_mem text).1
    · exact pythonRound2_le 20 (by norm_num) (SubstanceDetector.substance_structure_mem text).2
    · exact pythonRound2_ge 0 (by norm_num) (SubstanceDetector.substance_penalties_mem (pyLower text)).1
    · exact pythonRound2_le 15 (by norm_num) (SubstanceDetector.substance_penalties_mem (pyLower text)).2
    · exact pythonRound2_ge 0 (by norm_num) (le_min (by norm_num) (le_max_left _ _))
    · exact pythonRound2_le 100 (by norm_num) (min_le_left _ _)

theorem quality_record_bounds (ts : Textstat) (text : String) :
    QualityInBounds (QualityAssessor.analyze_post ts text) := by
  unfold QualityAssessor.analyze_post
  split
  · norm_num [QualityAssessor.create_result, QualityInBounds]
  · unfold QualityInBounds
    dsimp only
    refine ⟨?_, ?_, ?_, ?_, ?_, ?_, ?_, ?_, ?_, ?_, ?_, ?_⟩
    · exact pythonRound2_ge 0 (by norm_num) (QualityAssessor.score_readability_mem ts text).1
    · exact pythonRound2_le 25 (by norm_num) (QualityAssessor.score_readability_mem ts text).2
    · exact pythonRound2_ge 0 (by norm_num) (QualityAssessor.quality_structure_mem text).1
    · exact pythonRound2_le 25 (by norm_num) (QualityAssessor.quality_structure_mem text).2
    · exact pythonRound2_ge 0 (by norm_num) (QualityAssessor.score_professionalism_mem text (pyLower text)).1
    · exact pythonRound2_le 25 (by norm_num) (QualityAssessor.score_professionalism_mem text (pyLower text)).2
    · exact pythonRound2_ge 0 (by norm_num) (QualityAssessor.score_grammar_clarity_mem text).1
    · exact pythonRound2_le 25 (by norm_num) (QualityAssessor.score_grammar_clarity_mem text).2
    · exact pythonRound2_ge 0 (by norm_num) (QualityAssessor.quality_penalties_mem text (pyLower text)).1
    · exact pythonRound2_le 20 (by norm_num) (QualityAssessor.quality_penalties_mem text (pyLower text)).2
    · exact pythonRound2_ge 0 (by norm_num) (le_min (by norm_num) (le_max_left _ _))
    · exact pythonRound2_le 100 (by norm_num) (min_le_left _ _)

theorem uniqueness_record_bounds (tfidf : Option (List (List Nat)))
    (sim : List Nat → List Nat → ℚ) (text : String) (post_index : Option Nat) :
    UniquenessInBounds (UniquenessDetector.analyze_post tfidf sim text post_index) := by
  have hsim : 0 ≤ (match post_index with
      | some i => UniquenessDetector.score_similarity tfidf sim i
      | none => (12.5 : ℚ)) ∧
      (match post_index with
      | some i => UniquenessDetector.score_similarity tfidf sim i
      | none => (12.5 : ℚ)) ≤ 25 := by
    rcases post_index with _ | i
    · norm_num
    · exact UniquenessDetector.score_similarity_mem tfidf sim i
  unfold UniquenessDetector.analyze_post
  split
  · norm_num [UniquenessDetector.create_result, UniquenessInBounds]
  · unfold UniquenessInBounds
    dsimp only
    refine ⟨?_, ?_, ?_, ?_, ?_, ?_, ?_, ?_, ?_, ?_, ?_, ?_⟩
    · exact pythonRound2_ge 0 (by norm_num) (UniquenessDetector.score_personal_story_mem text (pyLower text)).1
    · exact pythonRound2_le 25 (by norm_num) (UniquenessDetector.score_personal_story_mem text (pyLower text)).2
    · exact pythonRound2_ge 0 (by norm_num) (UniquenessDetector.score_originality_mem text (pyLower text)).1
    · exact pythonRound2_le 25 (by norm_num) (UniquenessDetector.score_originality_mem text (pyLower text)).2
    · exact pythonRound2_ge 0 (by norm_num) (UniquenessDetector.score_specificity_mem text (pyLower text)).1
    · exact pythonRound2_le 25 (by norm_num) (UniquenessDetector.score_specificity_mem text (pyLower text)).2
    · exact pythonRound2_ge 0 (by norm_num) hsim.1
    · exact pythonRound2_le 25 (by norm_num) hsim.2
    · exact pythonRound2_ge 0 (by norm_num) (UniquenessDetector.uniqueness_penalties_mem (pyLower text)).1
    · exact pythonRound2_le 15 (by norm_num) (UniquenessDetector.uniqueness_penalties_mem (pyLower text)).2
    · exact pythonRound2_ge 0 (by norm_num) (le_min (by norm_num) (le_max_left _ _))
    · exact pythonRound2_le 100 (by norm_num) (min_le_left _ _)

/-- Claim C1: for every input text, each of the three analyzers returns a
record whose component sub-scores lie within their documented [0, max]
bounds (substance: information density 0-30, depth 0-25, value indicators
0-25, structure 0-20, penalties 0-15; quality: four 0-25 components and
penalties 0-20; uniqueness: four 0-25 components and penalties 0-15) and
whose total score lies within [0, 100], for every textstat oracle, corpus
state, similarity function and post index. -/
theorem all_scores_within_bounds (text : String) (ts : Textstat)
    (tfidf : Option (List (List Nat))) (sim : List Nat → List Nat → ℚ)
    (post_index : Option Nat) :
    SubstanceInBounds (SubstanceDetector.analyze_post text) ∧
    QualityInBounds (QualityAssessor.analyze_post ts text) ∧
    UniquenessInBounds (UniquenessDetector.analyze_post tfidf sim text post_index) :=
  ⟨substance_record_bounds text, quality_record_bounds ts text,
    uniqueness_record_bounds tfidf sim text post_index⟩

/-! ## Short-text precondition (claim C2) -/

/-- A textstat oracle whose formulas always fail, used to instantiate
concrete witnesses. -/
def tsFail : Textstat := ⟨fun _ => none, fun _ => none⟩

/-- A trivial similarity function used to instantiate concrete witnesses. -/
def simZero : List Nat → List Nat → ℚ := fun _ _ => 0

/-- Claim C2: a text whose stripped length is below the scorer-specific
minimum (50 characters for substance, 30 for quality and uniqueness; empty
texts included) always yields the designated zero record: total score 0, all
component sub-scores and penalties 0, classification Too short, regardless of
the content of the text, the textstat oracle, the corpus state or the post
index. -/
theorem short_text_zero_record :
    (∀ text : String, (pyStrip text).length < 50 →
      SubstanceDetector.analyze_post text = SubstanceDetector.create_result 0 "Too short") ∧
    (∀ (ts : Textstat) (text : String), (pyStrip text).length < 30 →
      QualityAssessor.analyze_post ts text = QualityAssessor.create_result 0 "Too short") ∧
    (∀ (tfidf : Option (List (List Nat))) (sim : List Nat → List Nat → ℚ)
        (text : String) (post_index : Option Nat), (pyStrip text).length < 30 →
      UniquenessDetector.analyze_post tfidf sim text post_index =
        UniquenessDetector.create_result 0 "Too short") := by
  refine ⟨fun text h => ?_, fun ts text h => ?_, fun tfidf sim text post_index h => ?_⟩
  · unfold SubstanceDetector.analyze_post
    rw [if_pos (Or.inr h)]
  · unfold QualityAssessor.analyze_post
    rw [if_pos (Or.inr h)]
  · unfold UniquenessDetector.analyze_post
    rw [if_pos (Or.inr h)]

/-- Witness for C2 at the concrete short text "Agree? 🚀". -/
theorem short_text_zero_record_witness :
    SubstanceDetector.analyze_post "Agree? 🚀" =
      SubstanceDetector.create_result 0 "Too short" ∧
    QualityAssessor.analyze_post tsFail "Agree? 🚀" =
      QualityAssessor.create_result 0 "Too short" ∧
    UniquenessDetector.analyze_post none simZero "Agree? 🚀" (some 0) =
      UniquenessDetector.create_result 0 "Too short" :=
  ⟨short_text_zero_record.1 "Agree? 🚀" (by decide),
   short_text_zero_record.2.1 tsFail "Agree? 🚀" (by decide),
   short_text_zero_record.2.2 none simZero "Agree? 🚀" (some 0) (by decide)⟩

/-! ## Composite score (claims C3 and C7) -/

/-- Claim C3: the composite score equals
round(0.35 * substance + 0.30 * quality + 0.35 * uniqueness, 2) for every
triple of total scores.  The embedding of analyze_all_content is a pure
function of the three totals: the three scorer records are only read, so the
equation itself certifies the absence of side effects on them. -/
theorem composite_formula (s q u : ℚ) :
    composite_score s q u = pythonRound2 (0.35 * s + 0.30 * q + 0.35 * u) := by
  unfold composite_score
  congr 1
  ring

/-- Claim C7: the composite score is monotone in each argument; increasing
any of the three total scores while the others do not decrease never
decreases the composite score. -/
theorem composite_monotone {s1 s2 q1 q2 u1 u2 : ℚ}
    (hs : s1 ≤ s2) (hq : q1 ≤ q2) (hu : u1 ≤ u2) :
    composite_score s1 q1 u1 ≤ composite_score s2 q2 u2 := by
  unfold composite_score
  apply pythonRound2_mono
  have h1 : s1 * 0.35 ≤ s2 * 0.35 := by nlinarith
  have h2 : q1 * 0.30 ≤ q2 * 0.30 := by nlinarith
  have h3 : u1 * 0.35 ≤ u2 * 0.35 := by nlinarith
  linarith

/-- Witness for C7 at concrete scores. -/
theorem composite_monotone_witness :
    composite_score 10 20 30 ≤ composite_score 15 20 30 :=
  composite_monotone (by norm_num) (by norm_num) (by norm_num)

/-! ## Implicit range claims on quality components (claims C9 and C10) -/

/-- A text whose stripped length reaches 30 passes the quality and
uniqueness length gate. -/
theorem quality_gate_false {text : String} (h : 30 ≤ (pyStrip text).length) :
    ¬ (text = "" ∨ (pyStrip text).length < 30) := by
  rintro (rfl | hlt)
  · revert h
    decide
  · omega

theorem score_grammar_clarity_ge_15 (text : String) :
    15 ≤ QualityAssessor.score_grammar_clarity text := by
  unfold QualityAssessor.score_grammar_clarity
  dsimp only
  refine le_min (by norm_num) ?_
  split_ifs <;> norm_num

/-- Claim C9: for every text passing the 30-character minimum, the grammar
and clarity sub-score lies in [15, 25]: it starts from a base of 15 and only
additive bonuses are applied. -/
theorem grammar_clarity_range (ts : Textstat) (text : String)
    (h : 30 ≤ (pyStrip text).length) :
    15 ≤ (QualityAssessor.analyze_post ts text).grammar_clarity ∧
      (QualityAssessor.analyze_post ts text).grammar_clarity ≤ 25 := by
  unfold QualityAssessor.analyze_post
  rw [if_neg (quality_gate_false h)]
  dsimp only
  exact ⟨pythonRound2_ge 15 (by norm_num) (score_grammar_clarity_ge_15 text),
    pythonRound2_le 25 (by norm_num) (QualityAssessor.score_grammar_clarity_mem text).2⟩

/-- Witness for C9 at a concrete text of stripped length at least 30. -/
theorem grammar_clarity_range_witness :
    15 ≤ (QualityAssessor.analyze_post tsFail
        "A plain example post used to check the range.").grammar_clarity ∧
      (QualityAssessor.analyze_post tsFail
        "A plain example post used to check the range.").grammar_clarity ≤ 25 :=
  grammar_clarity_range tsFail "A plain example post used to check the range."
    (by decide)

theorem score_professionalism_ge_9 (text text_lower : String) :
    9 ≤ QualityAssessor.score_professionalism text text_lower := by
  unfold QualityAssessor.score_professionalism
  dsimp only
  refine le_min (by norm_num) ?_
  refine le_trans ?_ (le_max_right _ _)
  have hv : (0 : ℚ) ≤ min 5
      ((QualityAssessor.professional_words.countP (fun w => containsSub text_lower w) : ℚ)
        * 0.8) := by positivity
  split_ifs <;> linarith

/-- Claim C10: for every text passing the 30-character minimum, the
professionalism sub-score lies in [9, 25]: the base of 15 can lose at most 3
for more than ten emojis plus 3 for more than five all-caps words. -/
theorem professionalism_range (ts : Textstat) (text : String)
    (h : 30 ≤ (pyStrip text).length) :
    9 ≤ (QualityAssessor.analyze_post ts text).professionalism ∧
      (QualityAssessor.analyze_post ts text).professionalism ≤ 25 := by
  unfold QualityAssessor.analyze_post
  rw [if_neg (quality_gate_false h)]
  dsimp only
  exact ⟨pythonRound2_ge 9 (by norm_num) (score_professionalism_ge_9 text (pyLower text)),
    pythonRound2_le 25 (by norm_num)
      (QualityAssessor.score_professionalism_mem text (pyLower text)).2⟩

/-- Witness for C10 at a concrete text of stripped length at least 30. -/
theorem professionalism_range_witness :
    9 ≤ (QualityAssessor.analyze_post tsFail
        "Another plain example post used for the range.").professionalism ∧
      (QualityAssessor.analyze_post tsFail
        "Another plain example post used for the range.").professionalism ≤ 25 :=
  professionalism_range tsFail "Another plain example post used for the range."
    (by decide)

/-! ## Readability fallback (claim C6) -/

/-- Claim C6: when either readability formula fails on a text, the whole
readability sub-score becomes the fixed neutral 12 (the fallback replaces
the entire sub-score, not just the failing term), the record returned to the
caller carries that 12 in its readability field (the failure is not
propagated: analyze_post still returns a complete record), and the value
respects the 25 cap. -/
theorem readability_fallback (ts : Textstat) (text : String)
    (hfail : ts.flesch_reading_ease text = none ∨ ts.flesch_kincaid_grade text = none)
    (hlen : 30 ≤ (pyStrip text).length) :
    QualityAssessor.score_readability ts text = 12 ∧
    (QualityAssessor.analyze_post ts text).readability = 12 ∧
    QualityAssessor.score_readability ts text ≤ 25 := by
  have h12 : QualityAssessor.score_readability ts text = 12 := by
    unfold QualityAssessor.score_readability
    rcases hE : ts.flesch_reading_ease text with _ | f
    · rcases hG : ts.flesch_kincaid_grade text with _ | g <;> norm_num
    · rcases hfail with h | h
      · rw [hE] at h
        exact absurd h (by simp)
      · rw [h]
        norm_num
  have hround : pythonRound2 (12 : ℚ) = 12 := by
    have := pythonRound2_intCast 12
    exact_mod_cast this
  refine ⟨h12, ?_, by rw [h12]; norm_num⟩
  unfold QualityAssessor.analyze_post
  rw [if_neg (quality_gate_false hlen)]
  dsimp only
  rw [h12, hround]

/-- Witness for C6: the always-failing oracle on a concrete long-enough
text. -/
theorem readability_fallback_witness :
    QualityAssessor.score_readability tsFail
        "A post that is long enough to pass the length gate." = 12 ∧
    (QualityAssessor.analyze_post tsFail
        "A post that is long enough to pass the length gate.").readability = 12 ∧
    QualityAssessor.score_readability tsFail
        "A post that is long enough to pass the length gate." ≤ 25 :=
  readability_fallback tsFail "A post that is long enough to pass the length gate."
    (Or.inl rfl) (by decide)

/-! ## The short engagement-bait scenario (claim C8)

The text "Success is a mindset! Agree? 🚀" has 30 characters, below the
50-character substance minimum, so analyze_post short-circuits to the zero
record: its classification is indeed "Too short", but its penalties field is
0 - the +3 engagement-bait penalty for "agree?" is never applied to the
returned record, contrary to the claim.  The bait detector itself does match
"agree?" on this text: _calculate_penalties on the lowercased text yields 8
(3 for the bait phrase plus 5 for the under-100-words penalty). -/

unseal Rat.mul Rat.add Rat.inv Rat.sub Rat.ofScientific in
/-- Counterexample to claim C8 as stated: the returned record classifies the
text as Too short, but its penalties field is 0, so no +3 engagement-bait
penalty is reflected in the record. -/
theorem short_bait_penalties_zero :
    (SubstanceDetector.analyze_post "Success is a mindset! Agree? 🚀").classification =
      "Too short" ∧
    (SubstanceDetector.analyze_post "Success is a mindset! Agree? 🚀").penalties = 0 := by
  decide

unseal Rat.mul Rat.add Rat.inv Rat.sub Rat.ofScientific in
/-- Claim C8 as amended: the text is returned as the zero Too short record
(penalties field 0, because the 50-character gate short-circuits before any
penalty is computed), while the engagement-bait detector itself does trigger
on "agree?": the bait part of _calculate_penalties contributes exactly 3 and
the full penalty function evaluates to 8 on the lowercased text. -/
theorem short_bait_zero_record_and_detector :
    SubstanceDetector.analyze_post "Success is a mindset! Agree? 🚀" =
      SubstanceDetector.create_result 0 "Too short" ∧
    SubstanceDetector.bait_penalty (pyLower "Success is a mindset! Agree? 🚀") = 3 ∧
    SubstanceDetector.calculate_penalties (pyLower "Success is a mindset! Agree? 🚀") = 8 := by
  decide

/-! ## The proper-noun-density bonus (claim C5) -/

/-- Folding list append over an accumulator is flattening. -/
theorem foldl_append_eq_flatten {α β : Type _} (f : α → List β) :
    ∀ (l : List α) (acc : List β),
      l.foldl (fun a s => a ++ f s) acc = acc ++ (l.map f).flatten
  | [], acc => by simp
  | x :: xs, acc => by
    simp only [List.foldl_cons, List.map_cons, List.flatten_cons,
      foldl_append_eq_flatten f xs (acc ++ f x)]
    simp [List.append_assoc]

/-- The proper-noun count prescribed by the words of the spec sentence of
claim C5: for every sentence of the text (split on ". "), the capitalized
multi-word spans found outside the sentence's first token, that is excluding
any span that begins at the sentence's first token (its first non-whitespace
position), collected over all sentences and deduplicated. -/
def entity_count_spec (text : String) : Nat :=
  ((((pySplitOn text ". ").map (fun s =>
      ((capsSpansPos s).filter (fun p =>
        p.1 != (s.data.takeWhile Char.isWhitespace).length)).map Prod.snd)).flatten).dedup).length

/-- The bonus the claim asserts: min(6, 0.8 x the spec count). -/
def entity_bonus_spec (text : String) : ℚ := min 6 ((entity_count_spec text : ℚ) * 0.8)

unseal Rat.mul Rat.add Rat.inv Rat.sub Rat.ofScientific in
/-- Counterexample to claim C5 as stated: on this text the code counts the
span Alice Smith, which stands at the first token of the second sentence
(excluded by the claim), and ignores every span of the first sentence, so
the implemented bonus is 0.8 while the claimed formula gives 0. -/
theorem entity_bonus_counterexample :
    UniquenessDetector.entity_bonus "Short intro here. Alice Smith joined the team." ≠
      entity_bonus_spec "Short intro here. Alice Smith joined the team." ∧
    UniquenessDetector.entity_bonus "Short intro here. Alice Smith joined the team." = 0.8 ∧
    entity_bonus_spec "Short intro here. Alice Smith joined the team." = 0 := by
  decide

/-- Claim C5 as amended: the proper-noun-density bonus equals
min(6, 0.8 x N) where N is the number of distinct capitalized multi-word
spans found in the sentences after the first (splitting the text on ". ");
the whole first sentence is excluded, and a span beginning at a later
sentence's first token is counted. -/
theorem entity_bonus_drops_first_sentence (text : String) :
    UniquenessDetector.entity_bonus text =
      min 6 ((((((pySplitOn text ". ").drop 1).map capsSpans).flatten).dedup.length : ℚ)
        * 0.8) := by
  unfold UniquenessDetector.entity_bonus UniquenessDetector.entity_count
  rw [foldl_append_eq_flatten capsSpans ((pySplitOn text ". ").drop 1) []]
  simp

/-! ## Corpus similarity (claim C4) -/

/-- Reading a list off by indices is the list itself. -/
theorem map_getD_range {α β : Type _} (d : α) (f : α → β) :
    ∀ l : List α, (List.range l.length).map (fun j => f (l.getD j d)) = l.map f
  | [] => rfl
  | x :: xs => by
    rw [List.length_cons, List.range_succ_eq_map]
    simp only [List.map_cons, List.getD_cons_zero, List.map_map, Function.comp_def,
      List.getD_cons_succ]
    exact congrArg (f x :: ·) (map_getD_range d f xs)

/-- Removing index i from the image of a list is the image of the indices
different from i. -/
theorem eraseIdx_map_getD {α β : Type _} (d : α) (f : α → β) :
    ∀ (l : List α) (i : Nat), i < l.length →
      (l.map f).eraseIdx i =
        ((List.range l.length).filter (fun j => j != i)).map (fun j => f (l.getD j d))
  | [], i, h => absurd h (by simp)
  | x :: xs, 0, _ => by
    rw [List.length_cons, List.range_succ_eq_map]
    simp only [List.map_cons, List.eraseIdx_cons_zero, List.filter_cons, bne_self_eq_false,
      Bool.false_eq_true, if_false, List.filter_map, Function.comp_def]
    have hall : (List.range xs.length).filter (fun j => (j + 1 != 0)) = List.range xs.length :=
      List.filter_eq_self.mpr (by intro a _; simp)
    rw [hall, List.map_map]
    simp only [Function.comp_def, List.getD_cons_succ]
    exact (map_getD_range d f xs).symm
  | x :: xs, i + 1, h => by
    rw [List.length_cons, List.range_succ_eq_map]
    simp only [List.map_cons, List.eraseIdx_cons_succ, List.filter_cons, List.filter_map,
      Function.comp_def]
    have h0 : ((0 : Nat) != i + 1) = true := by simp
    rw [h0]
    simp only [if_true]
    have hpred : (List.range xs.length).filter (fun j => (j + 1 != i + 1)) =
        (List.range xs.length).filter (fun j => j != i) := by
      apply List.filter_congr
      intro a _
      simp
    rw [hpred]
    simp only [List.map_cons, List.map_map, Function.comp_def, List.getD_cons_succ,
      List.getD_cons_zero]
    exact congrArg (f x :: ·) (eraseIdx_map_getD d f xs i (by simpa using h))

/-- With a single document, every term occurs in at most one document, so
the min_df=2 pruning empties the vocabulary and prepare_corpus enters the
disabled state. -/
theorem singleton_prepare_corpus_none (p : String) : prepare_corpus [p] = none := by
  unfold prepare_corpus vocabulary
  have hfil : ((([p].map corpusTerms).flatten).dedup).filter
      (fun t => decide (2 ≤ docFreq [p] t)) = [] := by
    apply List.filter_eq_nil_iff.mpr
    intro t _
    have hdf : docFreq [p] t ≤ 1 :=
      le_trans (List.countP_le_length _) (by simp)
    simp only [decide_eq_true_eq]
    omega
  rw [hfil]
  rfl

unseal Rat.mul Rat.add Rat.inv Rat.sub Rat.ofScientific in
theorem pythonRound2_neutral : pythonRound2 (12.5 : ℚ) = 12.5 := by decide

unseal Rat.mul Rat.add Rat.inv Rat.sub Rat.ofScientific in
/-- Counterexample to claim C4 as stated: for the one-post corpus whose post
is the 2-character text "hi", scoring that post returns the Too short zero
record, whose uniqueness-vs-corpus field is 0, not the neutral 12.5. -/
theorem singleton_corpus_short_post_counterexample :
    (UniquenessDetector.analyze_post (prepare_corpus ["hi"]) simZero "hi"
      (some 0)).uniqueness_vs_corpus = 0 ∧
    (UniquenessDetector.analyze_post (prepare_corpus ["hi"]) simZero "hi"
      (some 0)).uniqueness_vs_corpus ≠ 12.5 := by
  decide

/-- Claim C4 as amended: for a corpus of exactly one post that passes the
30-character minimum, prepare_corpus followed by scoring that post (with its
post index supplied) returns a full record - no error reaches the caller,
the embedding being a total function - whose uniqueness-vs-corpus sub-score
is the neutral 12.5 (below the minimum the scorer instead returns the Too
short zero record, still without error); and in general the similarity
computation never compares a post against itself: the averaged list obtained
by deleting the self entry is exactly the list of similarities to the
indices different from the queried one. -/
theorem singleton_corpus_neutral_similarity :
    (∀ (p : String) (sim : List Nat → List Nat → ℚ), 30 ≤ (pyStrip p).length →
      (UniquenessDetector.analyze_post (prepare_corpus [p]) sim p
        (some 0)).uniqueness_vs_corpus = 12.5) ∧
    (∀ (matrix : List (List Nat)) (sim : List Nat → List Nat → ℚ) (i : Nat),
      i < matrix.length →
      (matrix.map (sim (matrix.getD i []))).eraseIdx i =
        ((List.range matrix.length).filter (fun j => j != i)).map
          (fun j => sim (matrix.getD i []) (matrix.getD j []))) := by
  constructor
  · intro p sim hlen
    unfold UniquenessDetector.analyze_post
    rw [if_neg (quality_gate_false hlen)]
    dsimp only
    rw [singleton_prepare_corpus_none p]
    show pythonRound2 (UniquenessDetector.score_similarity none sim 0) = 12.5
    unfold UniquenessDetector.score_similarity
    exact pythonRound2_neutral
  · exact fun matrix sim i h => eraseIdx_map_getD [] (sim (matrix.getD i [])) matrix i h

/-- Witness for C4 as amended: a concrete one-post corpus above the length
minimum, and a concrete three-row matrix with the middle index removed. -/
theorem singleton_corpus_neutral_similarity_witness :
    (UniquenessDetector.analyze_post
      (prepare_corpus ["A lone post that reaches the minimum length."]) simZero
      "A lone post that reaches the minimum length." (some 0)).uniqueness_vs_corpus = 12.5 ∧
    (([[1], [2], [3]] : List (List Nat)).map
        (simZero (([[1], [2], [3]] : List (List Nat)).getD 1 []))).eraseIdx 1 =
      ((List.range ([[1], [2], [3]] : List (List Nat)).length).filter
        (fun j => j != 1)).map
          (fun j => simZero (([[1], [2], [3]] : List (List Nat)).getD 1 [])
            (([[1], [2], [3]] : List (List Nat)).getD j [])) :=
  ⟨singleton_corpus_neutral_similarity.1 "A lone post that reaches the minimum length."
      simZero (by decide),
    singleton_corpus_neutral_similarity.2 [[1], [2], [3]] simZero 1 (by decide)⟩
